import Mathlib

/-!
Verification of the pricing calculator in `src/app.py` (WanderMotta/Calculadora).

Modelling conventions:
* Python `float` values are modelled as exact rationals (`ℚ`); Python `int`
  values as `ℤ` (Python integers are unbounded and may be negative).
* A raw form field is modelled by its parse semantics: `RawField.asFloat` is the
  result of Python `float(s)` (`none` on `ValueError`) and `RawField.asInt` the
  result of `int(s)`.  A `FormData` maps each of the ten field names to an
  optional raw field (`none` = field absent from the request).
* `validar_dados_entrada` reads fields with `form_data.get(key, 0)` (an absent
  field defaults to the number `0`, which parses successfully), while
  `processar_dados_formulario` indexes `form_data[key]` directly (an absent
  field raises `KeyError`, caught and turned into `None`).  Both behaviours are
  reproduced faithfully below.
* `index_post` models the POST branch of the `index` route: validate, then
  build the record and compute, surfacing either an error message or a result.
-/

namespace Calculadora

/-- `DadosEntrada` from `src/app.py` (lines 8-20): the typed input record. -/
structure DadosEntrada where
  F_base : ℚ
  N_emp : ℤ
  Rp1 : ℚ
  Rp2 : ℚ
  N_loc : ℤ
  R_loc : ℚ
  Aud_incl : ℤ
  N_aud : ℤ
  R_aud : ℚ
  m : ℚ
deriving DecidableEq

/-- `ResultadoCalculo` from `src/app.py` (lines 22-29): the computed result. -/
structure ResultadoCalculo where
  C_emp : ℚ
  C_loc : ℚ
  C_aud : ℚ
  Custo_bruto : ℚ
  Preco : ℚ
deriving DecidableEq

/-- A raw form field, abstracted by its parse semantics: `asFloat` is the
result of Python `float(s)` and `asInt` the result of `int(s)`. -/
structure RawField where
  asFloat : Option ℚ
  asInt : Option ℤ
deriving DecidableEq

/-- The raw request mapping: each of the ten form fields may be absent. -/
structure FormData where
  F_base : Option RawField
  N_emp : Option RawField
  Rp1 : Option RawField
  Rp2 : Option RawField
  N_loc : Option RawField
  R_loc : Option RawField
  Aud_incl : Option RawField
  N_aud : Option RawField
  R_aud : Option RawField
  m : Option RawField
deriving DecidableEq

/-- `float(form_data.get(key, 0))`: an absent field defaults to `0`. -/
def getFloat (f : Option RawField) : Option ℚ :=
  match f with
  | none => some 0
  | some r => r.asFloat

/-- `int(form_data.get(key, 0))`: an absent field defaults to `0`. -/
def getInt (f : Option RawField) : Option ℤ :=
  match f with
  | none => some 0
  | some r => r.asInt

def msg_F_base : String := "O valor base deve ser positivo"

def msg_N_emp : String := "O número de funcionários deve ser positivo"

def msg_Rp : String := "As tarifas de funcionários devem ser positivas"

def msg_N_loc : String := "O número de postos deve ser positivo"

def msg_R_loc : String := "A tarifa por posto deve ser positiva"

def msg_Aud : String := "O número de audiências deve ser positivo"

def msg_Aud_ordem : String :=
  "O número total de audiências deve ser maior ou igual às audiências incluídas"

def msg_R_aud : String := "A tarifa por audiência extra deve ser positiva"

def msg_m_neg : String := "A margem de lucro deve ser positiva (ex: 0.20 para 20%)"

def msg_m_alta : String :=
  "A margem de lucro parece muito alta. Use valores decimais (ex: 0.20 para 20%)"

def msg_parse_erro : String :=
  "Erro nos dados informados. Verifique se todos os campos estão preenchidos corretamente"

def msg_processar_erro : String :=
  "Erro ao processar os dados. Verifique os valores informados."

/-- The ten parses performed at the top of `validar_dados_entrada`
(lines 35-44), using `.get(key, 0)` defaults; `none` when any parse raises
`ValueError`. -/
def parseForm (fd : FormData) : Option DadosEntrada := do
  let vF ← getFloat fd.F_base
  let vNe ← getInt fd.N_emp
  let v1 ← getFloat fd.Rp1
  let v2 ← getFloat fd.Rp2
  let vNl ← getInt fd.N_loc
  let vRl ← getFloat fd.R_loc
  let vAi ← getInt fd.Aud_incl
  let vNa ← getInt fd.N_aud
  let vRa ← getFloat fd.R_aud
  let vm ← getFloat fd.m
  return ⟨vF, vNe, v1, v2, vNl, vRl, vAi, vNa, vRa, vm⟩

/-- The business-rule chain of `validar_dados_entrada` (lines 47-77), applied
to the successfully parsed values, in the code's order. -/
def validarParsed (d : DadosEntrada) : Bool × String :=
  if d.F_base < 0 then (false, msg_F_base)
  else if d.N_emp < 0 then (false, msg_N_emp)
  else if d.Rp1 < 0 ∨ d.Rp2 < 0 then (false, msg_Rp)
  else if d.N_loc < 0 then (false, msg_N_loc)
  else if d.R_loc < 0 then (false, msg_R_loc)
  else if d.Aud_incl < 0 ∨ d.N_aud < 0 then (false, msg_Aud)
  else if d.N_aud < d.Aud_incl then (false, msg_Aud_ordem)
  else if d.R_aud < 0 then (false, msg_R_aud)
  else if d.m < 0 then (false, msg_m_neg)
  else if d.m > 10 then (false, msg_m_alta)
  else (true, "")

/-- `validar_dados_entrada` (lines 31-82): parse all ten fields (a failed parse
yields the `ValueError` message), then run the business-rule checks. -/
def validar_dados_entrada (fd : FormData) : Bool × String :=
  match parseForm fd with
  | none => (false, msg_parse_erro)
  | some d => validarParsed d

/-- `float(form_data[key])`: a missing key raises `KeyError` (so `none`),
otherwise the field is parsed as a float. -/
def strictFloat (f : Option RawField) : Option ℚ :=
  f.bind RawField.asFloat

/-- `int(form_data[key])`: a missing key raises `KeyError` (so `none`),
otherwise the field is parsed as an integer. -/
def strictInt (f : Option RawField) : Option ℤ :=
  f.bind RawField.asInt

/-- `processar_dados_formulario` (lines 84-100): builds a `DadosEntrada` by
strict indexing `form_data[key]` (a missing key raises `KeyError`); returns
`none` on `ValueError` or `KeyError`. -/
def processar_dados_formulario (fd : FormData) : Option DadosEntrada := do
  let vF ← strictFloat fd.F_base
  let vNe ← strictInt fd.N_emp
  let v1 ← strictFloat fd.Rp1
  let v2 ← strictFloat fd.Rp2
  let vNl ← strictInt fd.N_loc
  let vRl ← strictFloat fd.R_loc
  let vAi ← strictInt fd.Aud_incl
  let vNa ← strictInt fd.N_aud
  let vRa ← strictFloat fd.R_aud
  let vm ← strictFloat fd.m
  return ⟨vF, vNe, v1, v2, vNl, vRl, vAi, vNa, vRa, vm⟩

/-- `calcular_custo_funcionarios` (lines 102-104). -/
def calcular_custo_funcionarios (n_emp : ℤ) (rp1 rp2 : ℚ) : ℚ :=
  (min n_emp 100 : ℤ) * rp1 + (max 0 (n_emp - 100) : ℤ) * rp2

/-- `calcular_custo_postos` (lines 106-108). -/
def calcular_custo_postos (n_loc : ℤ) (r_loc : ℚ) : ℚ :=
  (n_loc : ℚ) * r_loc

/-- `calcular_custo_audiencias_extras` (lines 110-112). -/
def calcular_custo_audiencias_extras (n_aud aud_incl : ℤ) (r_aud : ℚ) : ℚ :=
  (max 0 (n_aud - aud_incl) : ℤ) * r_aud

/-- `calcular_precificacao` (lines 114-131). -/
def calcular_precificacao (dados : DadosEntrada) : ResultadoCalculo :=
  let C_emp := calcular_custo_funcionarios dados.N_emp dados.Rp1 dados.Rp2
  let C_loc := calcular_custo_postos dados.N_loc dados.R_loc
  let C_aud := calcular_custo_audiencias_extras dados.N_aud dados.Aud_incl dados.R_aud
  let Custo_bruto := dados.F_base + C_emp + C_loc + C_aud
  let Preco := Custo_bruto * (1 + dados.m)
  ⟨C_emp, C_loc, C_aud, Custo_bruto, Preco⟩

/-- The POST branch of the `index` route (lines 470-490): validate first; on
rejection surface the validation message, otherwise build the record and
compute, or surface the processing error when the record cannot be built. -/
def index_post (fd : FormData) : Except String ResultadoCalculo :=
  let v := validar_dados_entrada fd
  if v.1 then
    match processar_dados_formulario fd with
    | some dados => Except.ok (calcular_precificacao dados)
    | none => Except.error msg_processar_erro
  else
    Except.error v.2

/-- The messages a business-rule violation can produce (as opposed to the
parse-failure and processing-failure messages). -/
def ruleMessages : List String :=
  [msg_F_base, msg_N_emp, msg_Rp, msg_N_loc, msg_R_loc, msg_Aud,
   msg_Aud_ordem, msg_R_aud, msg_m_neg, msg_m_alta]

/-- The example input from the spec: base 1000, 50 employees at rates 25/30,
5 locations at 200, 3 included of 8 hearings at 150, margin 0.20. -/
def exampleDados : DadosEntrada :=
  ⟨1000, 50, 25, 30, 5, 200, 3, 8, 150, 0.2⟩

/-- Returns `(false, msg)` for the first violated rule of the list (a rule is a
pair of a violation flag and its message), `(true, "")` when none is violated. -/
def firstFailure : List (Bool × String) → Bool × String
  | [] => (true, "")
  | (b, msg) :: rest => if b then (false, msg) else firstFailure rest

/-- The business rules of `validar_dados_entrada`, as (violation, message)
pairs, in the order the code checks them (lines 47-75). -/
def businessRules (d : DadosEntrada) : List (Bool × String) :=
  [(decide (d.F_base < 0), msg_F_base),
   (decide (d.N_emp < 0), msg_N_emp),
   (decide (d.Rp1 < 0 ∨ d.Rp2 < 0), msg_Rp),
   (decide (d.N_loc < 0), msg_N_loc),
   (decide (d.R_loc < 0), msg_R_loc),
   (decide (d.Aud_incl < 0 ∨ d.N_aud < 0), msg_Aud),
   (decide (d.N_aud < d.Aud_incl), msg_Aud_ordem),
   (decide (d.R_aud < 0), msg_R_aud),
   (decide (d.m < 0), msg_m_neg),
   (decide (d.m > 10), msg_m_alta)]

/-- Modelled from the spec: the same business rules in the order the claim
asserts — non-negativity of every monetary/count field first, then
total-hearings at least included-hearings, then the margin upper bound. -/
def claimedRules (d : DadosEntrada) : List (Bool × String) :=
  [(decide (d.F_base < 0), msg_F_base),
   (decide (d.N_emp < 0), msg_N_emp),
   (decide (d.Rp1 < 0 ∨ d.Rp2 < 0), msg_Rp),
   (decide (d.N_loc < 0), msg_N_loc),
   (decide (d.R_loc < 0), msg_R_loc),
   (decide (d.Aud_incl < 0 ∨ d.N_aud < 0), msg_Aud),
   (decide (d.R_aud < 0), msg_R_aud),
   (decide (d.m < 0), msg_m_neg),
   (decide (d.N_aud < d.Aud_incl), msg_Aud_ordem),
   (decide (d.m > 10), msg_m_alta)]

/-- Modelled from the spec: a validator that parses like the code but checks
the business rules in the order the claim asserts. -/
def validarSpecOrder (fd : FormData) : Bool × String :=
  match parseForm fd with
  | none => (false, msg_parse_erro)
  | some d => firstFailure (claimedRules d)

/-- All ten form fields are present in the request mapping. -/
def allPresent (fd : FormData) : Prop :=
  fd.F_base.isSome = true ∧ fd.N_emp.isSome = true ∧ fd.Rp1.isSome = true ∧
  fd.Rp2.isSome = true ∧ fd.N_loc.isSome = true ∧ fd.R_loc.isSome = true ∧
  fd.Aud_incl.isSome = true ∧ fd.N_aud.isSome = true ∧ fd.R_aud.isSome = true ∧
  fd.m.isSome = true

/-- A raw field behaving like an integer literal string: both `float(s)` and
`int(s)` succeed. -/
def rawInt (n : ℤ) : RawField := ⟨some (n : ℚ), some n⟩

/-- A raw field behaving like a decimal literal string: `float(s)` succeeds. -/
def rawDec (q : ℚ) : RawField := ⟨some q, none⟩

/-- A request with every field absent: `validar_dados_entrada` accepts it via
the `.get(key, 0)` defaults, yet `processar_dados_formulario` fails on it. -/
def emptyForm : FormData :=
  ⟨none, none, none, none, none, none, none, none, none, none⟩

/-- A complete request carrying the spec's worked example. -/
def exampleForm : FormData :=
  ⟨some (rawDec 1000), some (rawInt 50), some (rawDec 25), some (rawDec 30),
   some (rawInt 5), some (rawDec 200), some (rawInt 3), some (rawInt 8),
   some (rawDec 150), some (rawDec 0.2)⟩

/-- A request whose only rule violations are a negative extra-hearing rate and
total hearings below included hearings: the code and the claimed check order
disagree on which message it gets. -/
def ordemForm : FormData :=
  ⟨some (rawInt 0), some (rawInt 0), some (rawInt 0), some (rawInt 0),
   some (rawInt 0), some (rawInt 0), some (rawInt 1), some (rawInt 0),
   some (rawInt (-1)), some (rawInt 0)⟩

/-- The parsed record of `ordemForm`. -/
def ordemDados : DadosEntrada := ⟨0, 0, 0, 0, 0, 0, 1, 0, -1, 0⟩

/-- A request whose base fee is negative. -/
def negForm : FormData :=
  ⟨some (rawDec (-5)), some (rawInt 0), some (rawInt 0), some (rawInt 0),
   some (rawInt 0), some (rawInt 0), some (rawInt 0), some (rawInt 0),
   some (rawInt 0), some (rawInt 0)⟩

/-- The parsed record of `negForm`. -/
def negDados : DadosEntrada := ⟨-5, 0, 0, 0, 0, 0, 0, 0, 0, 0⟩

/-- A request with fewer total hearings than included hearings. -/
def hearForm : FormData :=
  ⟨some (rawInt 0), some (rawInt 0), some (rawInt 0), some (rawInt 0),
   some (rawInt 0), some (rawInt 0), some (rawInt 5), some (rawInt 2),
   some (rawInt 0), some (rawInt 0)⟩

/-- The parsed record of `hearForm`. -/
def hearDados : DadosEntrada := ⟨0, 0, 0, 0, 0, 0, 5, 2, 0, 0⟩

/-- When the parses of `validar_dados_entrada` succeed, validation is the
business-rule chain on the parsed record. -/
theorem validar_eq_of_parse (fd : FormData) (d : DadosEntrada)
    (hp : parseForm fd = some d) :
    validar_dados_entrada fd = validarParsed d := by
  simp [validar_dados_entrada, hp]

set_option maxHeartbeats 1600000 in
/-- If the business-rule chain accepts a record, every rule holds. -/
theorem validarParsed_accepts (d : DadosEntrada) (h : (validarParsed d).1 = true) :
    0 ≤ d.F_base ∧ 0 ≤ d.N_emp ∧ 0 ≤ d.Rp1 ∧ 0 ≤ d.Rp2 ∧ 0 ≤ d.N_loc ∧
    0 ≤ d.R_loc ∧ 0 ≤ d.Aud_incl ∧ 0 ≤ d.N_aud ∧ d.Aud_incl ≤ d.N_aud ∧
    0 ≤ d.R_aud ∧ 0 ≤ d.m ∧ d.m ≤ 10 := by
  rw [validarParsed] at h
  split_ifs at h with h1 h2 h3 h4 h5 h6 h7 h8 h9 h10
  push_neg at h1 h2 h3 h4 h5 h6 h7 h8 h9 h10
  exact ⟨h1, h2, h3.1, h3.2, h4, h5, h6.1, h6.2, h7, h8, h9, h10⟩

set_option maxHeartbeats 1600000 in
/-- When the business-rule chain rejects, the message is one of the ten
rule-violation messages. -/
theorem validarParsed_reject_msg (d : DadosEntrada)
    (h : (validarParsed d).1 = false) :
    (validarParsed d).2 ∈ ruleMessages := by
  rw [validarParsed] at *
  split_ifs <;> simp_all [ruleMessages]

set_option maxHeartbeats 1600000 in
/-- The business-rule chain returns the first violated rule of
`businessRules`, in the code's order. -/
theorem validarParsed_eq_firstFailure (d : DadosEntrada) :
    validarParsed d = firstFailure (businessRules d) := by
  simp only [validarParsed, businessRules, firstFailure, decide_eq_true_eq]

/-- When every field is present, strict construction of the record agrees with
the defaulting parse used by validation. -/
theorem processar_eq_parseForm (fd : FormData) (h : allPresent fd) :
    processar_dados_formulario fd = parseForm fd := by
  obtain ⟨h1, h2, h3, h4, h5, h6, h7, h8, h9, h10⟩ := h
  obtain ⟨r1, e1⟩ := Option.isSome_iff_exists.mp h1
  obtain ⟨r2, e2⟩ := Option.isSome_iff_exists.mp h2
  obtain ⟨r3, e3⟩ := Option.isSome_iff_exists.mp h3
  obtain ⟨r4, e4⟩ := Option.isSome_iff_exists.mp h4
  obtain ⟨r5, e5⟩ := Option.isSome_iff_exists.mp h5
  obtain ⟨r6, e6⟩ := Option.isSome_iff_exists.mp h6
  obtain ⟨r7, e7⟩ := Option.isSome_iff_exists.mp h7
  obtain ⟨r8, e8⟩ := Option.isSome_iff_exists.mp h8
  obtain ⟨r9, e9⟩ := Option.isSome_iff_exists.mp h9
  obtain ⟨r10, e10⟩ := Option.isSome_iff_exists.mp h10
  simp [processar_dados_formulario, parseForm, strictFloat, strictInt,
    getFloat, getInt, e1, e2, e3, e4, e5, e6, e7, e8, e9, e10]

/-- C9: On base 1000, 50 employees at 25/30, 5 locations at 200, 3 included of
8 hearings at 150 and margin 0.20, the calculator yields employee cost 1250,
location cost 1000, extra-hearing cost 750, gross cost 4000, price 4800. -/
theorem C9_worked_example :
    (calcular_precificacao exampleDados).C_emp = 1250 ∧
    (calcular_precificacao exampleDados).C_loc = 1000 ∧
    (calcular_precificacao exampleDados).C_aud = 750 ∧
    (calcular_precificacao exampleDados).Custo_bruto = 4000 ∧
    (calcular_precificacao exampleDados).Preco = 4800 := by
  norm_num [calcular_precificacao, calcular_custo_funcionarios, calcular_custo_postos,
    calcular_custo_audiencias_extras, exampleDados, min_def, max_def]

/-- C2: The employee cost is min(count, 100) at the tier-1 rate plus the part
above 100 at the tier-2 rate; for 150 employees at 25/30 it is 4000. -/
theorem C2_employee_cost (n : ℤ) (rp1 rp2 : ℚ) :
    calcular_custo_funcionarios n rp1 rp2 =
      (min n 100 : ℤ) * rp1 + (max 0 (n - 100) : ℤ) * rp2 ∧
    calcular_custo_funcionarios 150 25 30 = 100 * 25 + 50 * 30 :=
  ⟨rfl, by norm_num [calcular_custo_funcionarios, min_def, max_def]⟩

/-- C6: The extra-hearing cost is zero when total hearings do not exceed the
included hearings, and (total − included) times the rate otherwise. -/
theorem C6_extra_hearings (n a : ℤ) (r : ℚ) :
    (n ≤ a → calcular_custo_audiencias_extras n a r = 0) ∧
    (a < n → calcular_custo_audiencias_extras n a r = ((n - a : ℤ) : ℚ) * r) := by
  constructor
  · intro h
    have e : max 0 (n - a) = 0 := max_eq_left (by omega)
    rw [calcular_custo_audiencias_extras, e]
    norm_num
  · intro h
    have e : max 0 (n - a) = n - a := max_eq_right (by omega)
    rw [calcular_custo_audiencias_extras, e]

/-- Witness for C6 at (8, 3, 150) and (2, 3, 150). -/
theorem C6_witness :
    calcular_custo_audiencias_extras 8 3 150 = ((8 - 3 : ℤ) : ℚ) * 150 ∧
    calcular_custo_audiencias_extras 2 3 150 = 0 :=
  ⟨(C6_extra_hearings 8 3 150).2 (by norm_num), (C6_extra_hearings 2 3 150).1 (by norm_num)⟩

/-- C1: For every input record with all fields non-negative, total hearings at
least the included hearings and margin in [0, 10], the gross cost equals the
base fee plus the three computed cost components, and the price equals the
gross cost times one plus the margin. -/
theorem C1_price_equations (d : DadosEntrada)
    (hF : 0 ≤ d.F_base) (hNe : 0 ≤ d.N_emp) (h1 : 0 ≤ d.Rp1) (h2 : 0 ≤ d.Rp2)
    (hNl : 0 ≤ d.N_loc) (hRl : 0 ≤ d.R_loc) (hAi : 0 ≤ d.Aud_incl)
    (hNa : 0 ≤ d.N_aud) (hRa : 0 ≤ d.R_aud) (hord : d.Aud_incl ≤ d.N_aud)
    (hm0 : 0 ≤ d.m) (hm10 : d.m ≤ 10) :
    (calcular_precificacao d).Custo_bruto =
      d.F_base + (calcular_precificacao d).C_emp + (calcular_precificacao d).C_loc +
        (calcular_precificacao d).C_aud ∧
    (calcular_precificacao d).Preco = (calcular_precificacao d).Custo_bruto * (1 + d.m) :=
  ⟨rfl, rfl⟩

/-- Witness for C1 at the spec's worked example. -/
theorem C1_witness :
    (calcular_precificacao exampleDados).Custo_bruto =
      exampleDados.F_base + (calcular_precificacao exampleDados).C_emp +
        (calcular_precificacao exampleDados).C_loc +
        (calcular_precificacao exampleDados).C_aud ∧
    (calcular_precificacao exampleDados).Preco =
      (calcular_precificacao exampleDados).Custo_bruto * (1 + exampleDados.m) :=
  C1_price_equations exampleDados (by norm_num [exampleDados]) (by norm_num [exampleDados])
    (by norm_num [exampleDados]) (by norm_num [exampleDados]) (by norm_num [exampleDados])
    (by norm_num [exampleDados]) (by norm_num [exampleDados]) (by norm_num [exampleDados])
    (by norm_num [exampleDados]) (by norm_num [exampleDados]) (by norm_num [exampleDados])
    (by norm_num [exampleDados])


/-- C5: For non-negative rates, the employee cost is monotonically
non-decreasing in the employee count; each unit up to count 100 adds the
tier-1 rate and each unit above 100 adds the tier-2 rate. -/
theorem C5_monotone_slope (rp1 rp2 : ℚ) (h1 : 0 ≤ rp1) (h2 : 0 ≤ rp2) :
    (∀ n1 n2 : ℤ, n1 ≤ n2 →
      calcular_custo_funcionarios n1 rp1 rp2 ≤ calcular_custo_funcionarios n2 rp1 rp2) ∧
    (∀ n : ℤ, n ≤ 100 →
      calcular_custo_funcionarios n rp1 rp2 - calcular_custo_funcionarios (n - 1) rp1 rp2
        = rp1) ∧
    (∀ n : ℤ, 100 < n →
      calcular_custo_funcionarios n rp1 rp2 - calcular_custo_funcionarios (n - 1) rp1 rp2
        = rp2) := by
  refine ⟨?_, ?_, ?_⟩
  · intro n1 n2 hn
    unfold calcular_custo_funcionarios
    have c1 : ((min n1 100 : ℤ) : ℚ) ≤ ((min n2 100 : ℤ) : ℚ) := by
      exact_mod_cast min_le_min hn (le_refl (100 : ℤ))
    have c2 : ((max 0 (n1 - 100) : ℤ) : ℚ) ≤ ((max 0 (n2 - 100) : ℤ) : ℚ) := by
      exact_mod_cast max_le_max (le_refl (0 : ℤ)) (by omega : n1 - 100 ≤ n2 - 100)
    exact add_le_add (mul_le_mul_of_nonneg_right c1 h1) (mul_le_mul_of_nonneg_right c2 h2)
  · intro n hn
    have e1 : min n 100 = n := min_eq_left (by omega)
    have e2 : min (n - 1) 100 = n - 1 := min_eq_left (by omega)
    have e3 : max 0 (n - 100) = 0 := max_eq_left (by omega)
    have e4 : max 0 (n - 1 - 100) = 0 := max_eq_left (by omega)
    rw [calcular_custo_funcionarios, calcular_custo_funcionarios, e1, e2, e3, e4]
    push_cast
    ring
  · intro n hn
    have e1 : min n 100 = 100 := min_eq_right (by omega)
    have e2 : min (n - 1) 100 = 100 := min_eq_right (by omega)
    have e3 : max 0 (n - 100) = n - 100 := max_eq_right (by omega)
    have e4 : max 0 (n - 1 - 100) = n - 1 - 100 := max_eq_right (by omega)
    rw [calcular_custo_funcionarios, calcular_custo_funcionarios, e1, e2, e3, e4]
    push_cast
    ring

/-- Witness for C5 at rates 25/30 around the bracket boundary. -/
theorem C5_witness :
    calcular_custo_funcionarios 99 25 30 ≤ calcular_custo_funcionarios 101 25 30 ∧
    calcular_custo_funcionarios 100 25 30 - calcular_custo_funcionarios 99 25 30 = 25 ∧
    calcular_custo_funcionarios 101 25 30 - calcular_custo_funcionarios 100 25 30 = 30 :=
  ⟨(C5_monotone_slope 25 30 (by norm_num) (by norm_num)).1 99 101 (by norm_num),
   (C5_monotone_slope 25 30 (by norm_num) (by norm_num)).2.1 100 (by norm_num),
   (C5_monotone_slope 25 30 (by norm_num) (by norm_num)).2.2 101 (by norm_num)⟩

/-- C10: With all ten input fields non-negative (no upper bound on the margin
needed), every computed cost, the gross cost and the price are non-negative,
and the price is at least the gross cost. -/
theorem C10_result_nonneg (d : DadosEntrada)
    (hF : 0 ≤ d.F_base) (hNe : 0 ≤ d.N_emp) (h1 : 0 ≤ d.Rp1) (h2 : 0 ≤ d.Rp2)
    (hNl : 0 ≤ d.N_loc) (hRl : 0 ≤ d.R_loc) (hAi : 0 ≤ d.Aud_incl)
    (hNa : 0 ≤ d.N_aud) (hRa : 0 ≤ d.R_aud) (hm : 0 ≤ d.m) :
    0 ≤ (calcular_precificacao d).C_emp ∧ 0 ≤ (calcular_precificacao d).C_loc ∧
    0 ≤ (calcular_precificacao d).C_aud ∧ 0 ≤ (calcular_precificacao d).Custo_bruto ∧
    0 ≤ (calcular_precificacao d).Preco ∧
    (calcular_precificacao d).Custo_bruto ≤ (calcular_precificacao d).Preco := by
  have hemp : 0 ≤ calcular_custo_funcionarios d.N_emp d.Rp1 d.Rp2 := by
    unfold calcular_custo_funcionarios
    have b1 : (0 : ℚ) ≤ ((min d.N_emp 100 : ℤ) : ℚ) := by
      exact_mod_cast le_min hNe (by norm_num : (0 : ℤ) ≤ 100)
    have b2 : (0 : ℚ) ≤ ((max 0 (d.N_emp - 100) : ℤ) : ℚ) := by
      exact_mod_cast le_max_left (0 : ℤ) (d.N_emp - 100)
    exact add_nonneg (mul_nonneg b1 h1) (mul_nonneg b2 h2)
  have hloc : 0 ≤ calcular_custo_postos d.N_loc d.R_loc := by
    unfold calcular_custo_postos
    exact mul_nonneg (by exact_mod_cast hNl) hRl
  have haud : 0 ≤ calcular_custo_audiencias_extras d.N_aud d.Aud_incl d.R_aud := by
    unfold calcular_custo_audiencias_extras
    have b : (0 : ℚ) ≤ ((max 0 (d.N_aud - d.Aud_incl) : ℤ) : ℚ) := by
      exact_mod_cast le_max_left (0 : ℤ) (d.N_aud - d.Aud_incl)
    exact mul_nonneg b hRa
  have hcb : 0 ≤ d.F_base + calcular_custo_funcionarios d.N_emp d.Rp1 d.Rp2 +
      calcular_custo_postos d.N_loc d.R_loc +
      calcular_custo_audiencias_extras d.N_aud d.Aud_incl d.R_aud :=
    add_nonneg (add_nonneg (add_nonneg hF hemp) hloc) haud
  simp only [calcular_precificacao]
  refine ⟨hemp, hloc, haud, hcb, mul_nonneg hcb (by linarith), ?_⟩
  exact le_mul_of_one_le_right hcb (by linarith)

/-- Witness for C10 at the spec's worked example. -/
theorem C10_witness :
    0 ≤ (calcular_precificacao exampleDados).C_emp ∧
    0 ≤ (calcular_precificacao exampleDados).C_loc ∧
    0 ≤ (calcular_precificacao exampleDados).C_aud ∧
    0 ≤ (calcular_precificacao exampleDados).Custo_bruto ∧
    0 ≤ (calcular_precificacao exampleDados).Preco ∧
    (calcular_precificacao exampleDados).Custo_bruto ≤
      (calcular_precificacao exampleDados).Preco :=
  C10_result_nonneg exampleDados (by norm_num [exampleDados]) (by norm_num [exampleDados])
    (by norm_num [exampleDados]) (by norm_num [exampleDados]) (by norm_num [exampleDados])
    (by norm_num [exampleDados]) (by norm_num [exampleDados]) (by norm_num [exampleDados])
    (by norm_num [exampleDados]) (by norm_num [exampleDados])


/-- C3 counterexample: on a request whose only violations are a negative
extra-hearing rate and total hearings below included hearings, the code
rejects with the hearing-order message, while checking non-negativity of all
fields first (as the claim orders the rules) would reject with the
extra-hearing-rate message. -/
theorem C3_counterexample :
    validar_dados_entrada ordemForm = (false, msg_Aud_ordem) ∧
    validarSpecOrder ordemForm = (false, msg_R_aud) ∧
    msg_Aud_ordem ≠ msg_R_aud :=
  ⟨by decide, by decide, by decide⟩

/-- C3 (amended): on a successfully parsed request, validation rejects with
the message of the first violated rule in the code's order — non-negativity of
base fee, employee count, employee rates, location count, location rate and
hearing counts, then total hearings at least included hearings, then
non-negativity of the extra-hearing rate, then non-negativity of the margin,
then the margin upper bound. -/
theorem C3_first_violated_rule (fd : FormData) (d : DadosEntrada)
    (hp : parseForm fd = some d) :
    validar_dados_entrada fd = firstFailure (businessRules d) := by
  rw [validar_eq_of_parse fd d hp]
  exact validarParsed_eq_firstFailure d

/-- Witness for C3 at the order-sensitive request. -/
theorem C3_witness :
    validar_dados_entrada ordemForm = firstFailure (businessRules ordemDados) :=
  C3_first_violated_rule ordemForm ordemDados (by decide)

/-- C4 counterexample: on a request with every field absent, validation
accepts (each `.get` defaults to 0) yet no input record is produced and the
response carries the processing-error message instead of a result. -/
theorem C4_counterexample :
    (validar_dados_entrada emptyForm).1 = true ∧
    processar_dados_formulario emptyForm = none ∧
    index_post emptyForm = Except.error msg_processar_erro :=
  ⟨by decide, by decide, rfl⟩

/-- C4 (amended): the pipeline yields exactly a rejection message or a record
and its computed result; and when all ten fields are present in the request,
acceptance by validation guarantees a record is built and its result
rendered. -/
theorem C4_pipeline (fd : FormData) (hall : allPresent fd) :
    ((validar_dados_entrada fd).1 = false ∧
      index_post fd = Except.error (validar_dados_entrada fd).2) ∨
    ((validar_dados_entrada fd).1 = true ∧
      ∃ d, processar_dados_formulario fd = some d ∧
        index_post fd = Except.ok (calcular_precificacao d)) := by
  cases hb : (validar_dados_entrada fd).1 with
  | false =>
    left
    exact ⟨rfl, by simp [index_post, hb]⟩
  | true =>
    right
    refine ⟨rfl, ?_⟩
    cases hp : parseForm fd with
    | none =>
      rw [validar_dados_entrada, hp] at hb
      simp at hb
    | some d =>
      have hproc : processar_dados_formulario fd = some d := by
        rw [processar_eq_parseForm fd hall, hp]
      exact ⟨d, hproc, by simp [index_post, hb, hproc]⟩

/-- Witness for C4 at the complete worked-example request. -/
theorem C4_witness :
    ((validar_dados_entrada exampleForm).1 = false ∧
      index_post exampleForm = Except.error (validar_dados_entrada exampleForm).2) ∨
    ((validar_dados_entrada exampleForm).1 = true ∧
      ∃ d, processar_dados_formulario exampleForm = some d ∧
        index_post exampleForm = Except.ok (calcular_precificacao d)) :=
  C4_pipeline exampleForm ⟨rfl, rfl, rfl, rfl, rfl, rfl, rfl, rfl, rfl, rfl⟩

/-- C7: whenever any of the ten parsed fields is negative, validation rejects
with a rule-violation message and the calculator is never invoked. -/
theorem C7_negative_rejected (fd : FormData) (d : DadosEntrada)
    (hp : parseForm fd = some d)
    (hneg : d.F_base < 0 ∨ d.N_emp < 0 ∨ d.Rp1 < 0 ∨ d.Rp2 < 0 ∨ d.N_loc < 0 ∨
      d.R_loc < 0 ∨ d.Aud_incl < 0 ∨ d.N_aud < 0 ∨ d.R_aud < 0 ∨ d.m < 0) :
    (validar_dados_entrada fd).1 = false ∧
    (validar_dados_entrada fd).2 ∈ ruleMessages ∧
    ∀ res : ResultadoCalculo, index_post fd ≠ Except.ok res := by
  have hv : validar_dados_entrada fd = validarParsed d := validar_eq_of_parse fd d hp
  have hfalse : (validarParsed d).1 = false := by
    cases hb : (validarParsed d).1 with
    | true =>
      exfalso
      obtain ⟨a1, a2, a3, a4, a5, a6, a7, a8, a9, a10, a11, a12⟩ :=
        validarParsed_accepts d hb
      rcases hneg with h | h | h | h | h | h | h | h | h | h <;> first | linarith | omega
    | false => rfl
  refine ⟨by rw [hv]; exact hfalse, by rw [hv]; exact validarParsed_reject_msg d hfalse, ?_⟩
  intro res
  simp [index_post, hv, hfalse]

/-- Witness for C7 at a request with a negative base fee. -/
theorem C7_witness :
    (validar_dados_entrada negForm).1 = false ∧
    (validar_dados_entrada negForm).2 ∈ ruleMessages ∧
    index_post negForm ≠ Except.ok (calcular_precificacao negDados) := by
  have h := C7_negative_rejected negForm negDados (by decide) (Or.inl (by decide))
  exact ⟨h.1, h.2.1, h.2.2 (calcular_precificacao negDados)⟩

/-- C8: whenever the parsed total-hearing count is below the parsed
included-hearing count, validation rejects with a rule-violation message. -/
theorem C8_hearing_order_rejected (fd : FormData) (d : DadosEntrada)
    (hp : parseForm fd = some d) (hlt : d.N_aud < d.Aud_incl) :
    (validar_dados_entrada fd).1 = false ∧
    (validar_dados_entrada fd).2 ∈ ruleMessages := by
  have hv : validar_dados_entrada fd = validarParsed d := validar_eq_of_parse fd d hp
  have hfalse : (validarParsed d).1 = false := by
    cases hb : (validarParsed d).1 with
    | true =>
      exfalso
      obtain ⟨-, -, -, -, -, -, -, -, a9, -, -, -⟩ := validarParsed_accepts d hb
      omega
    | false => rfl
  exact ⟨by rw [hv]; exact hfalse, by rw [hv]; exact validarParsed_reject_msg d hfalse⟩

/-- Witness for C8 at a request with 2 total and 5 included hearings. -/
theorem C8_witness :
    (validar_dados_entrada hearForm).1 = false ∧
    (validar_dados_entrada hearForm).2 ∈ ruleMessages :=
  C8_hearing_order_rejected hearForm hearDados (by decide) (by decide)

end Calculadora
